import Mathlib

/-!
Verification of the equipment-lending core of the school-base repository
(`src/equipment/models.py`) against its natural-language specification.

Shallow embedding conventions:
* A `datetime.datetime` is modelled as an `Int`, the number of seconds since an
  arbitrary epoch; one minute is 60, one day is 86400.
* A `datetime.date` is modelled as a `Nat` day index; day 0 is a Monday, so
  `isoweekday d = d % 7 + 1` (Monday = 1 .. Sunday = 7, as in Python).
* A `datetime.time` is modelled as minutes within the day.
* Python `None` is `Option.none`; `if custom_due_datetime:` tests Python
  truthiness, and a `datetime` object is always truthy while `None` is falsy,
  so the test is exactly `Option.isSome`.
* Raised exceptions are modelled with `Except`: in every operation of the
  source the guard `raise` precedes all mutation of the object, so an error
  result stands for "nothing happened".
* Django persistence is elided: an Item is its in-memory field record, and
  `Transaction.objects.create` is modelled by returning the created record.
-/

namespace EquipModels

/-- `isoweekday` of a day index, anchored so that day 0 is a Monday
(Monday = 1, ..., Friday = 5, ..., Sunday = 7). -/
def isoweekday (d : Nat) : Nat := d % 7 + 1

/-- `datetime.time(h, m)` as minutes within the day. -/
def mkTime (h m : Nat) : Nat := h * 60 + m

/-- `datetime.datetime.combine(day, t)`: the seconds timestamp of day `d`
at time-of-day `t` (minutes). -/
def combine (d t : Nat) : Int := Int.ofNat (d * 86400 + t * 60)

/-- `Item.STATUS_CHOICES`: INSTOCK, OUT, REPAIR = 1, 2, 3. -/
inductive Status where
  | instock
  | out
  | repair
deriving DecidableEq

/-- `get_status_display()`: the display string of a status
(from `STATUS_CHOICES` in the source). -/
def statusDisplay : Status → String
  | Status.instock => "in stock"
  | Status.out => "checked out"
  | Status.repair => "out for repair"

/-- `str(self.status)`: the raw integer code of a status, as the source's
`check_in` interpolates it into its error message. -/
def statusCode : Status → String
  | Status.instock => "1"
  | Status.out => "2"
  | Status.repair => "3"

/-- The mutable fields of an `Item` row that the claims concern.
`itemtype_kit` embeds `self.itemtype.kit`; `checked_out_by` holds a Person id. -/
structure Item where
  id : Nat
  serialnumber : String
  hip_number : String
  itemtype_kit : Bool
  status : Status
  checked_out_by : Option Nat
  due : Option Int
deriving DecidableEq

/-- `Item.is_kit` property: `self.itemtype.kit`. -/
def Item.is_kit (it : Item) : Bool := it.itemtype_kit

/-- `Item.is_in_stock` property: `self.status == self.INSTOCK`. -/
def Item.is_in_stock (it : Item) : Bool := it.status = Status.instock

/-- `Item.is_checked_out` property: `self.status == self.OUT`. -/
def Item.is_checked_out (it : Item) : Bool := it.status = Status.out

/-- The two exception classes of the module, each carrying a message. -/
inductive EquipError where
  | itemError (message : String)
  | transactionError (message : String)
deriving DecidableEq

deriving instance DecidableEq for Except

/-- `Transaction.TRANSACTION_KINDS`. -/
inductive TransactionKind where
  | add
  | checkout
  | checkin
  | repair_out
  | repair_back
deriving DecidableEq

/-- A `Transaction` row (timestamp elided; `item` is the Item id). -/
structure Transaction where
  item : Nat
  person : Option Nat
  kind : TransactionKind
  note : Option String
deriving DecidableEq

/-- `Item.set_due_datetime(custom_due_datetime=None)`:
`if custom_due_datetime:` keeps it verbatim; otherwise Friday checkouts are
due `today + 3 days` at 07:50 and all other days `today + 1 day` at 17:50. -/
def Item.set_due_datetime (it : Item) (custom_due_datetime : Option Int) (today : Nat) : Item :=
  match custom_due_datetime with
  | some c => { it with due := some c }
  | none =>
    if isoweekday today = 5 then
      { it with due := some (combine (today + 3) (mkTime 7 50)) }
    else
      { it with due := some (combine (today + 1) (mkTime 17 50)) }

/-- The default due timestamp `set_due_datetime` computes when no custom
timestamp is supplied, as a function of today's day index. -/
def default_due (today : Nat) : Int :=
  if isoweekday today = 5 then combine (today + 3) (mkTime 7 50)
  else combine (today + 1) (mkTime 17 50)

/-- The identifier check of `Item.save`:
`if not (self.serialnumber or self.hip_number): raise ItemError(...)`.
(The kit due-date cascade of `save` is modelled at the kit level, `KitWorld.save`,
since it touches the contents and not the saved item's own fields.) -/
def Item.saveCheck (it : Item) : Except EquipError Item :=
  if it.serialnumber = "" ∧ it.hip_number = "" then
    Except.error (EquipError.itemError "Each item needs either a serial number or a HIP number")
  else
    Except.ok it

/-- `Item.days_overdue(as_of=None)` with `as_of` made explicit:
0 if not checked out or `self.due >= as_of`, else `(as_of - self.due).days + 1`,
where `timedelta.days` is floor division of the seconds difference by 86400. -/
def Item.days_overdue (it : Item) (as_of : Int) : Int :=
  if it.is_checked_out = false then 0
  else
    match it.due with
    | none => 0
    | some due =>
      if due ≥ as_of then 0
      else (as_of - due).fdiv 86400 + 1

/-- `Item.add_to_stock(note=None)`: if the status differs from INSTOCK, record
an ADD transaction and set the status to INSTOCK; otherwise do nothing.
Borrower and due are untouched. (For a kit the source also recurses into the
contents; that only mutates the contained Items, never the fields of the item
itself, so the per-item effect embedded here is exact for kits too.) -/
def Item.add_to_stock (it : Item) (note : Option String) : Item × List Transaction :=
  if it.status ≠ Status.instock then
    ({ it with status := Status.instock },
     [{ item := it.id, person := none, kind := TransactionKind.add, note := note }])
  else
    (it, [])

/-- `Item.check_out(person, custom_due_datetime=None, note=None)`: raise
TransactionError when not INSTOCK (message interpolating
`get_status_display()`); otherwise create a CHECKOUT transaction, set status to
OUT, set the borrower, compute the due timestamp, and save. (The kit recursion
that follows the save in the source only mutates the contained Items; it is
embedded at the kit level in `KitWorld.check_out`.) -/
def Item.check_out (it : Item) (person : Nat) (custom_due_datetime : Option Int)
    (today : Nat) (note : Option String) : Except EquipError (Item × Transaction) :=
  if it.status ≠ Status.instock then
    Except.error (EquipError.transactionError
      ("Item isn't in stock -- " ++ statusDisplay it.status))
  else
    let txn : Transaction :=
      { item := it.id, person := some person, kind := TransactionKind.checkout, note := note }
    let it2 : Item := { it with status := Status.out, checked_out_by := some person }
    let it3 : Item := it2.set_due_datetime custom_due_datetime today
    match it3.saveCheck with
    | Except.error e => Except.error e
    | Except.ok it4 => Except.ok (it4, txn)

/-- `Item.check_in(note=None)`: raise TransactionError when not OUT (message
interpolating the raw integer `self.status`); otherwise create a CHECKIN
transaction tagged with the borrower, set status to INSTOCK, clear the
borrower, and save. The due timestamp is not touched. -/
def Item.check_in (it : Item) (note : Option String) :
    Except EquipError (Item × Transaction) :=
  if it.status ≠ Status.out then
    Except.error (EquipError.transactionError
      ("Item isn't checked out -- " ++ statusCode it.status))
  else
    let person : Option Nat := it.checked_out_by
    let txn : Transaction :=
      { item := it.id, person := person, kind := TransactionKind.checkin, note := note }
    let it2 : Item := { it with status := Status.instock, checked_out_by := none }
    match it2.saveCheck with
    | Except.error e => Except.error e
    | Except.ok it3 => Except.ok (it3, txn)

/-- The three state-changing operations the reachability claims range over. -/
inductive Op where
  | addToStock (note : Option String)
  | checkOut (person : Nat) (custom_due_datetime : Option Int) (today : Nat) (note : Option String)
  | checkIn (note : Option String)
deriving DecidableEq

/-- Apply one operation to an item; a raised error leaves the item as it was
(every raise in the source precedes any mutation of the item, save failures
excepted, and the item is simply kept when an exception is caught). -/
def applyOp (it : Item) : Op → Item
  | Op.addToStock note => (it.add_to_stock note).1
  | Op.checkOut person custom today note =>
    match it.check_out person custom today note with
    | Except.ok (it2, _) => it2
    | Except.error _ => it
  | Op.checkIn note =>
    match it.check_in note with
    | Except.ok (it2, _) => it2
    | Except.error _ => it

/-- Run a sequence of operations on an item, catching errors. -/
def runOps (it : Item) (ops : List Op) : Item := ops.foldl applyOp it

/-- A freshly created Item: status INSTOCK by default, no borrower, no due. -/
def freshItem (id : Nat) (serialnumber hip_number : String) (itemtype_kit : Bool) : Item :=
  { id := id, serialnumber := serialnumber, hip_number := hip_number,
    itemtype_kit := itemtype_kit, status := Status.instock,
    checked_out_by := none, due := none }

/-- The transactions created by one `check_out` call (none when it raises,
since the raise precedes `Transaction.objects.create` in the source). -/
def checkOutTransactions (it : Item) (person : Nat) (custom_due_datetime : Option Int)
    (today : Nat) (note : Option String) : List Transaction :=
  match it.check_out person custom_due_datetime today note with
  | Except.ok (_, txn) => [txn]
  | Except.error _ => []

/-- The sub-language of operations without `add_to_stock`: plain loan traffic. -/
inductive LoanOp where
  | checkOut (person : Nat) (custom_due_datetime : Option Int) (today : Nat) (note : Option String)
  | checkIn (note : Option String)
deriving DecidableEq

/-- Embed a loan operation into the full operation language. -/
def LoanOp.toOp : LoanOp → Op
  | LoanOp.checkOut p c t n => Op.checkOut p c t n
  | LoanOp.checkIn n => Op.checkIn n

/-- The spec's checked-out invariant: `is_checked_out` ⟺ `status == OUT` ⟺
(borrower set and due set). -/
def checkedOutInv (it : Item) : Prop :=
  (it.is_checked_out = true ↔ it.status = Status.out) ∧
  (it.status = Status.out ↔ (it.checked_out_by ≠ none ∧ it.due ≠ none))

/-- The queryset `cls.objects.filter(Q(hip_number=number)|Q(serialnumber=number))`. -/
def matchesFor (items : List Item) (number : String) : List Item :=
  items.filter (fun item => item.hip_number == number || item.serialnumber == number)

/-- `Item.find_by_number(number)` over the table of items: more than one match
raises ItemError listing the matching ids, zero matches raises ItemError, and
otherwise the single match is returned. -/
def find_by_number (items : List Item) (number : String) : Except EquipError Item :=
  let found := matchesFor items number
  if found.length > 1 then
    Except.error (EquipError.itemError
      ("Multiple matches for " ++ number ++ ": [" ++
        String.intercalate ", " (found.map (fun item => toString item.id)) ++ "]"))
  else
    match found.head? with
    | none => Except.error (EquipError.itemError
        ("No item found with serial/HIP number " ++ number))
    | some m => Except.ok m

/-- `Penalty.BASE_PENALTY_AMOUNT`: dollar-credits per day of late equipment. -/
def BASE_PENALTY_AMOUNT : Int := 2500

/-- A `Penalty` row with its attached items (`when_levied` elided). -/
structure Penalty where
  student : Nat
  amount : Int
  items : List Item
deriving DecidableEq

/-- The running maximum `overdue_days` computed by the loop in `Penalty.levy`. -/
def maxOverdue (item_set : List Item) (as_of : Int) : Int :=
  item_set.foldl (fun acc item => max acc (item.days_overdue as_of)) 0

/-- `Penalty.levy(student)`: `item_set` stands for `student.item_set.all()`
(the Items whose `checked_out_by` is the student). Compute the maximum
`days_overdue()`, return nothing when the resulting amount is zero, otherwise
create a Penalty of `BASE_PENALTY_AMOUNT * overdue_days` and attach every item
whose `days_overdue()` equals the maximum. -/
def Penalty.levy (student : Nat) (item_set : List Item) (as_of : Int) : Option Penalty :=
  let overdue_days := item_set.foldl (fun acc item => max acc (item.days_overdue as_of)) 0
  let penalty_amount := BASE_PENALTY_AMOUNT * overdue_days
  if penalty_amount = 0 then
    none
  else
    some { student := student, amount := penalty_amount,
           items := item_set.filter (fun item => item.days_overdue as_of == overdue_days) }

/-- A kit Item together with its `contents`. The contents are modelled one
level deep (plain, non-kit Items), matching the reference design in which kits
are not nested; the kit-level theorems hypothesise `is_kit = false` for every
contained Item. -/
structure KitWorld where
  kit : Item
  contents : List Item
deriving DecidableEq

/-- A `for` loop over a list in which each iteration can raise: the first
raised error aborts and propagates, otherwise all results are collected. -/
def exceptMap {α β : Type} (f : α → Except EquipError β) : List α → Except EquipError (List β)
  | [] => Except.ok []
  | x :: xs =>
    match f x with
    | Except.error e => Except.error e
    | Except.ok y =>
      match exceptMap f xs with
      | Except.error e => Except.error e
      | Except.ok ys => Except.ok (y :: ys)

/-- One iteration of the kit-save cascade in `Item.save`:
`item.set_due_datetime(custom_due_datetime=self.due); item.save()`, where
`due` is the kit's due timestamp. -/
def kitContentSave (due : Option Int) (today : Nat) (item : Item) : Except EquipError Item :=
  (item.set_due_datetime due today).saveCheck

/-- `Item.save` for a kit: after the identifier check, every contained item
gets `set_due_datetime(custom_due_datetime=self.due)` and is saved. Note that
when the kit's due is `None`, Python falsiness routes `set_due_datetime` to the
default computation. -/
def KitWorld.save (w : KitWorld) (today : Nat) : Except EquipError KitWorld :=
  if w.kit.serialnumber = "" ∧ w.kit.hip_number = "" then
    Except.error (EquipError.itemError "Each item needs either a serial number or a HIP number")
  else if w.kit.is_kit then
    match exceptMap (kitContentSave w.kit.due today) w.contents with
    | Except.error e => Except.error e
    | Except.ok contents2 => Except.ok { kit := w.kit, contents := contents2 }
  else
    Except.ok { kit := w.kit, contents := w.contents }

/-- One iteration of the kit-checkout loop in `Item.check_out`:
`item.check_out(person, note="Checked out as part of kit ...")`, keeping the
updated item (no custom due is passed down). -/
def kitContentCheckOut (person today : Nat) (item : Item) : Except EquipError Item :=
  match item.check_out person none today (some "Checked out as part of kit") with
  | Except.error e => Except.error e
  | Except.ok (item2, _) => Except.ok item2

/-- `Item.check_out` at the kit level: guard, mutate the kit's own fields,
save (which cascades the kit's due onto the contents), then check out every
contained item with `custom_due_datetime=None` and a kit note. Any error
raised by a contained item's checkout propagates (there is no try/except in
the source). The transaction ledger is elided here; no kit claim concerns it. -/
def KitWorld.check_out (w : KitWorld) (person : Nat) (custom_due_datetime : Option Int)
    (today : Nat) (note : Option String) : Except EquipError KitWorld :=
  if w.kit.status ≠ Status.instock then
    Except.error (EquipError.transactionError
      ("Item isn't in stock -- " ++ statusDisplay w.kit.status))
  else
    let kit2 : Item := { w.kit with status := Status.out, checked_out_by := some person }
    let kit3 : Item := kit2.set_due_datetime custom_due_datetime today
    match KitWorld.save { kit := kit3, contents := w.contents } today with
    | Except.error e => Except.error e
    | Except.ok w1 =>
      if w1.kit.is_kit then
        match exceptMap (kitContentCheckOut person today) w1.contents with
        | Except.error e => Except.error e
        | Except.ok contents2 => Except.ok { kit := w1.kit, contents := contents2 }
      else
        Except.ok w1

/-- Concrete state for refuting C1: check out a fresh item, then call
`add_to_stock` on it (status resets to INSTOCK, borrower and due survive). -/
def cexItemC1 : Item :=
  runOps (freshItem 1 "2345" "" false) [Op.checkOut 7 none 0 none, Op.addToStock none]

/-- Concrete state for refuting C10: check out a fresh item, then check it
back in (`check_in` never clears the due timestamp). -/
def cexItemC10 : Item :=
  runOps (freshItem 1 "2345" "" false) [Op.checkOut 7 none 0 none, Op.checkIn none]

/-- The three items of the spec's `find_by_number` example: serials "2345" and
"4567", and a third item with HIP number "C1" sharing serial "4567". -/
def itemsEx5 : List Item :=
  [⟨1, "2345", "", false, Status.instock, none, none⟩,
   ⟨2, "4567", "", false, Status.instock, none, none⟩,
   ⟨3, "4567", "C1", false, Status.instock, none, none⟩]

/-- Concrete kit for refuting C7: a kit whose due is null containing one
in-stock item. -/
def wEx7 : KitWorld :=
  { kit := ⟨10, "1974", "", true, Status.instock, none, none⟩,
    contents := [freshItem 1 "2345" "" false] }

/-- Concrete kit for C7's amended claim: the same kit with due set to 42. -/
def wEx7b : KitWorld :=
  { kit := ⟨10, "1974", "", true, Status.out, some 7, some 42⟩,
    contents := [freshItem 1 "2345" "" false] }

/-- Concrete kit for refuting C8: an in-stock kit with one in-stock content,
checked out with the explicit custom due timestamp 0. -/
def wEx8 : KitWorld :=
  { kit := ⟨10, "1974", "", true, Status.instock, none, none⟩,
    contents := [freshItem 1 "2345" "" false] }

/-- Concrete kit for refuting C9: an in-stock kit containing an item that is
already checked out. -/
def wEx9 : KitWorld :=
  { kit := ⟨10, "1974", "", true, Status.instock, none, none⟩,
    contents := [⟨1, "2345", "", false, Status.out, some 5, some 0⟩] }

/-- Two items of one borrower tied at the same overdue count, for C6's witness
(due at timestamp 0, inspected at 0 + 24h + 1 minute: two days overdue each). -/
def itemsEx6 : List Item :=
  [⟨1, "2345", "", false, Status.out, some 7, some 0⟩,
   ⟨2, "8765", "", false, Status.out, some 7, some 0⟩]

/-- Claim C2: `set_due_datetime` with an explicitly supplied timestamp sets the
Item's due to that timestamp verbatim; with no timestamp supplied, if today is
Friday it sets due to today + 3 days at 07:50, and on every other day it sets
due to today + 1 day at 17:50. -/
theorem claim_C2 (it : Item) (today : Nat) :
    (∀ c : Int, (it.set_due_datetime (some c) today).due = some c) ∧
    (isoweekday today = 5 →
      (it.set_due_datetime none today).due = some (combine (today + 3) (mkTime 7 50))) ∧
    (isoweekday today ≠ 5 →
      (it.set_due_datetime none today).due = some (combine (today + 1) (mkTime 17 50))) := by
  refine ⟨fun c => rfl, fun h => ?_, fun h => ?_⟩
  · simp [Item.set_due_datetime, h]
  · simp [Item.set_due_datetime, h]

/-- Witness for C2: day 4 is a Friday (isoweekday 5) and day 0 a Monday;
the two default branches evaluated at a concrete item. -/
theorem claim_C2_witness :
    (Item.set_due_datetime ⟨1, "2345", "", false, Status.instock, none, none⟩ none 4).due
        = some (combine 7 (mkTime 7 50)) ∧
    (Item.set_due_datetime ⟨1, "2345", "", false, Status.instock, none, none⟩ none 0).due
        = some (combine 1 (mkTime 17 50)) :=
  ⟨(claim_C2 ⟨1, "2345", "", false, Status.instock, none, none⟩ 4).2.1 (by decide),
   (claim_C2 ⟨1, "2345", "", false, Status.instock, none, none⟩ 0).2.2 (by decide)⟩

/-- Claim C3: for an Item with due timestamp `T`, `days_overdue as_of` is 0 when
the Item is not checked out or `as_of ≤ T`; otherwise it is the floor of the
whole-day difference plus one; and for a checked-out Item,
`days_overdue T = 0`, `days_overdue (T + 1 min) = 1`,
`days_overdue (T + 24h + 1 min) = 2`. -/
theorem claim_C3 (it : Item) (T : Int) (hdue : it.due = some T) :
    (∀ as_of : Int, it.is_checked_out = false → it.days_overdue as_of = 0) ∧
    (∀ as_of : Int, as_of ≤ T → it.days_overdue as_of = 0) ∧
    (∀ as_of : Int, it.is_checked_out = true → T < as_of →
      it.days_overdue as_of = (as_of - T).fdiv 86400 + 1) ∧
    (it.is_checked_out = true →
      it.days_overdue T = 0 ∧
      it.days_overdue (T + 60) = 1 ∧
      it.days_overdue (T + 86400 + 60) = 2) := by
  have hmin : (T + 60 - T).fdiv 86400 = 0 := by
    have h1 : T + 60 - T = (60 : Int) := by ring
    rw [h1]; decide
  have hday : (T + 86400 + 60 - T).fdiv 86400 = 1 := by
    have h1 : T + 86400 + 60 - T = (86460 : Int) := by ring
    rw [h1]; decide
  refine ⟨fun as_of hout => ?_, fun as_of hle => ?_, fun as_of hco hlt => ?_, fun hco => ?_⟩
  · simp [Item.days_overdue, hout]
  · cases hco : it.is_checked_out with
    | false => simp [Item.days_overdue, hco]
    | true => simp [Item.days_overdue, hco, hdue, hle]
  · simp [Item.days_overdue, hco, hdue, not_le.mpr hlt]
  · refine ⟨?_, ?_, ?_⟩
    · simp [Item.days_overdue, hco, hdue]
    · have hlt : T < T + 60 := by omega
      simp [Item.days_overdue, hco, hdue, not_le.mpr hlt, hmin]
    · have hlt : T < T + 86400 + 60 := by omega
      simp [Item.days_overdue, hco, hdue, not_le.mpr hlt, hday]

/-- Witness for C3: a checked-out item due at timestamp 0 evaluated at the
three sample offsets of the claim (T, T + 1 minute, T + 24h + 1 minute). -/
theorem claim_C3_witness :
    Item.days_overdue ⟨1, "2345", "", false, Status.out, some 7, some 0⟩ 0 = 0 ∧
    Item.days_overdue ⟨1, "2345", "", false, Status.out, some 7, some 0⟩ 60 = 1 ∧
    Item.days_overdue ⟨1, "2345", "", false, Status.out, some 7, some 0⟩ (0 + 86400 + 60) = 2 :=
  ⟨((claim_C3 ⟨1, "2345", "", false, Status.out, some 7, some 0⟩ 0 rfl).2.2.2 (by decide)).1,
   ((claim_C3 ⟨1, "2345", "", false, Status.out, some 7, some 0⟩ 0 rfl).2.2.2 (by decide)).2.1,
   ((claim_C3 ⟨1, "2345", "", false, Status.out, some 7, some 0⟩ 0 rfl).2.2.2 (by decide)).2.2⟩

lemma set_due_datetime_status (it : Item) (c : Option Int) (today : Nat) :
    (it.set_due_datetime c today).status = it.status := by
  cases c with
  | some d => rfl
  | none => by_cases h : isoweekday today = 5 <;> simp [Item.set_due_datetime, h]

lemma set_due_datetime_checked_out_by (it : Item) (c : Option Int) (today : Nat) :
    (it.set_due_datetime c today).checked_out_by = it.checked_out_by := by
  cases c with
  | some d => rfl
  | none => by_cases h : isoweekday today = 5 <;> simp [Item.set_due_datetime, h]

lemma set_due_datetime_serial (it : Item) (c : Option Int) (today : Nat) :
    (it.set_due_datetime c today).serialnumber = it.serialnumber := by
  cases c with
  | some d => rfl
  | none => by_cases h : isoweekday today = 5 <;> simp [Item.set_due_datetime, h]

lemma set_due_datetime_hip (it : Item) (c : Option Int) (today : Nat) :
    (it.set_due_datetime c today).hip_number = it.hip_number := by
  cases c with
  | some d => rfl
  | none => by_cases h : isoweekday today = 5 <;> simp [Item.set_due_datetime, h]

lemma set_due_datetime_kit (it : Item) (c : Option Int) (today : Nat) :
    (it.set_due_datetime c today).itemtype_kit = it.itemtype_kit := by
  cases c with
  | some d => rfl
  | none => by_cases h : isoweekday today = 5 <;> simp [Item.set_due_datetime, h]

lemma set_due_datetime_id (it : Item) (c : Option Int) (today : Nat) :
    (it.set_due_datetime c today).id = it.id := by
  cases c with
  | some d => rfl
  | none => by_cases h : isoweekday today = 5 <;> simp [Item.set_due_datetime, h]

lemma set_due_datetime_due (it : Item) (c : Option Int) (today : Nat) :
    (it.set_due_datetime c today).due = some (c.getD (default_due today)) := by
  cases c with
  | some d => rfl
  | none => by_cases h : isoweekday today = 5 <;> simp [Item.set_due_datetime, default_due, h]

lemma saveCheck_ok_of (it : Item) (h : ¬ (it.serialnumber = "" ∧ it.hip_number = "")) :
    it.saveCheck = Except.ok it := by
  simp [Item.saveCheck, h]

lemma saveCheck_error_of (it : Item) (h : it.serialnumber = "" ∧ it.hip_number = "") :
    it.saveCheck = Except.error
      (EquipError.itemError "Each item needs either a serial number or a HIP number") := by
  simp [Item.saveCheck, h]

lemma check_out_guard (it : Item) (p : Nat) (c : Option Int) (t : Nat) (n : Option String)
    (h : it.status ≠ Status.instock) :
    it.check_out p c t n = Except.error (EquipError.transactionError
      ("Item isn't in stock -- " ++ statusDisplay it.status)) := by
  simp [Item.check_out, h]

lemma check_out_ok (it : Item) (p : Nat) (c : Option Int) (t : Nat) (n : Option String)
    (hst : it.status = Status.instock)
    (hnum : ¬ (it.serialnumber = "" ∧ it.hip_number = "")) :
    it.check_out p c t n = Except.ok
      (({ it with status := Status.out, checked_out_by := some p } : Item).set_due_datetime c t,
       { item := it.id, person := some p, kind := TransactionKind.checkout, note := n }) := by
  have hnum2 : ¬ ((({ it with status := Status.out, checked_out_by := some p } : Item).set_due_datetime c t).serialnumber = ""
      ∧ (({ it with status := Status.out, checked_out_by := some p } : Item).set_due_datetime c t).hip_number = "") := by
    simp only [set_due_datetime_serial, set_due_datetime_hip]
    exact hnum
  simp [Item.check_out, hst, saveCheck_ok_of _ hnum2]

lemma check_in_guard (it : Item) (n : Option String) (h : it.status ≠ Status.out) :
    it.check_in n = Except.error (EquipError.transactionError
      ("Item isn't checked out -- " ++ statusCode it.status)) := by
  simp [Item.check_in, h]

lemma check_in_ok (it : Item) (n : Option String) (hst : it.status = Status.out)
    (hnum : ¬ (it.serialnumber = "" ∧ it.hip_number = "")) :
    it.check_in n = Except.ok
      ({ it with status := Status.instock, checked_out_by := none },
       { item := it.id, person := it.checked_out_by, kind := TransactionKind.checkin, note := n }) := by
  have hnum2 : ¬ (({ it with status := Status.instock, checked_out_by := none } : Item).serialnumber = ""
      ∧ ({ it with status := Status.instock, checked_out_by := none } : Item).hip_number = "") := hnum
  simp [Item.check_in, hst, saveCheck_ok_of _ hnum2]

lemma checkedOutInv_fresh (id : Nat) (sn hn : String) (kf : Bool) :
    checkedOutInv (freshItem id sn hn kf) := by
  simp [checkedOutInv, freshItem, Item.is_checked_out]

lemma checkedOutInv_checkOut (it : Item) (p : Nat) (c : Option Int) (t : Nat) (n : Option String)
    (h : checkedOutInv it) : checkedOutInv (applyOp it (Op.checkOut p c t n)) := by
  by_cases hst : it.status = Status.instock
  · by_cases hnum : it.serialnumber = "" ∧ it.hip_number = ""
    · have h3 : (({ it with status := Status.out, checked_out_by := some p } : Item).set_due_datetime c t).saveCheck
          = Except.error (EquipError.itemError "Each item needs either a serial number or a HIP number") := by
        refine saveCheck_error_of _ ?_
        simp only [set_due_datetime_serial, set_due_datetime_hip]
        exact hnum
      have heq : applyOp it (Op.checkOut p c t n) = it := by
        simp [applyOp, Item.check_out, hst, h3]
      rw [heq]; exact h
    · have heq : applyOp it (Op.checkOut p c t n)
          = ({ it with status := Status.out, checked_out_by := some p } : Item).set_due_datetime c t := by
        simp [applyOp, check_out_ok it p c t n hst hnum]
      rw [heq]
      constructor
      · simp [Item.is_checked_out, set_due_datetime_status]
      · simp [set_due_datetime_status, set_due_datetime_checked_out_by, set_due_datetime_due]
  · have heq : applyOp it (Op.checkOut p c t n) = it := by
      simp [applyOp, check_out_guard it p c t n hst]
    rw [heq]; exact h

lemma checkedOutInv_checkIn (it : Item) (n : Option String)
    (h : checkedOutInv it) : checkedOutInv (applyOp it (Op.checkIn n)) := by
  by_cases hst : it.status = Status.out
  · by_cases hnum : it.serialnumber = "" ∧ it.hip_number = ""
    · have h3 : ({ it with status := Status.instock, checked_out_by := none } : Item).saveCheck
          = Except.error (EquipError.itemError "Each item needs either a serial number or a HIP number") :=
        saveCheck_error_of _ hnum
      have heq : applyOp it (Op.checkIn n) = it := by
        simp [applyOp, Item.check_in, hst, h3]
      rw [heq]; exact h
    · have heq : applyOp it (Op.checkIn n)
          = ({ it with status := Status.instock, checked_out_by := none } : Item) := by
        simp [applyOp, check_in_ok it n hst hnum]
      rw [heq]
      constructor
      · simp [Item.is_checked_out]
      · simp
  · have heq : applyOp it (Op.checkIn n) = it := by
      simp [applyOp, check_in_guard it n hst]
    rw [heq]; exact h

lemma runOps_preserve (P : Item → Prop) (hstep : ∀ it op, P it → P (applyOp it op)) :
    ∀ (ops : List Op) (it : Item), P it → P (runOps it ops) := by
  intro ops
  induction ops with
  | nil => intro it h; exact h
  | cons op ops ih =>
    intro it h
    have heq : runOps it (op :: ops) = runOps (applyOp it op) ops := rfl
    rw [heq]
    exact ih (applyOp it op) (hstep it op h)

lemma runOps_loan_preserve (P : Item → Prop)
    (hstep : ∀ (it : Item) (lop : LoanOp), P it → P (applyOp it lop.toOp)) :
    ∀ (lops : List LoanOp) (it : Item), P it → P (runOps it (lops.map LoanOp.toOp)) := by
  intro lops
  induction lops with
  | nil => intro it h; exact h
  | cons lop lops ih =>
    intro it h
    have heq : runOps it ((lop :: lops).map LoanOp.toOp)
        = runOps (applyOp it lop.toOp) (lops.map LoanOp.toOp) := rfl
    rw [heq]
    exact ih (applyOp it lop.toOp) (hstep it lop h)

/-- Claim C1 counterexample: the claim quantifies over sequences that include
`add_to_stock`, but checking out a fresh item and then calling `add_to_stock`
on it resets the status to IN_STOCK while leaving the borrower and the due
timestamp set, so "is_checked_out" (false) is not equivalent to "borrower and
due are non-null" (true). -/
theorem claim_C1_counterexample :
    cexItemC1.status = Status.instock ∧
    cexItemC1.checked_out_by = some 7 ∧
    cexItemC1.due = some 150600 ∧
    ¬ (cexItemC1.is_checked_out = true ↔
        (cexItemC1.checked_out_by ≠ none ∧ cexItemC1.due ≠ none)) := by
  decide

/-- Claim C1 (amended): for every Item in any state reachable from a freshly
created Item by any sequence of `check_out` and `check_in` operations (the
claim's `add_to_stock`, applied to a checked-out Item, breaks the equivalence
by resetting the status without clearing borrower and due), the three
conditions are equivalent: `is_checked_out` is true, status equals
CHECKED_OUT, and borrower and due are both non-null. -/
theorem claim_C1_amended (id : Nat) (sn hn : String) (kf : Bool) (lops : List LoanOp) :
    checkedOutInv (runOps (freshItem id sn hn kf) (lops.map LoanOp.toOp)) := by
  refine runOps_loan_preserve checkedOutInv ?_ lops _ (checkedOutInv_fresh id sn hn kf)
  intro it lop h
  cases lop with
  | checkOut p c t n => exact checkedOutInv_checkOut it p c t n h
  | checkIn n => exact checkedOutInv_checkIn it n h

/-- Claim C4: `check_out` on an Item whose status is not IN_STOCK raises a
TransactionError whose message contains the current status (it interpolates
`get_status_display()`), creates no Transaction, and leaves the Item
unchanged. -/
theorem claim_C4 (it : Item) (person : Nat) (c : Option Int) (today : Nat)
    (note : Option String) (h : it.status ≠ Status.instock) :
    it.check_out person c today note =
      Except.error (EquipError.transactionError
        ("Item isn't in stock -- " ++ statusDisplay it.status)) ∧
    checkOutTransactions it person c today note = [] ∧
    applyOp it (Op.checkOut person c today note) = it := by
  have h1 := check_out_guard it person c today note h
  refine ⟨h1, ?_, ?_⟩
  · simp [checkOutTransactions, h1]
  · simp [applyOp, h1]

/-- Witness for C4: checking out an already-checked-out item raises with the
status display in the message, records nothing and changes nothing. -/
theorem claim_C4_witness :
    Item.check_out ⟨1, "2345", "", false, Status.out, some 7, some 0⟩ 9 none 0 none =
      Except.error (EquipError.transactionError
        ("Item isn't in stock -- " ++ statusDisplay Status.out)) ∧
    checkOutTransactions ⟨1, "2345", "", false, Status.out, some 7, some 0⟩ 9 none 0 none = [] ∧
    applyOp ⟨1, "2345", "", false, Status.out, some 7, some 0⟩ (Op.checkOut 9 none 0 none) =
      ⟨1, "2345", "", false, Status.out, some 7, some 0⟩ :=
  claim_C4 ⟨1, "2345", "", false, Status.out, some 7, some 0⟩ 9 none 0 none (by decide)

/-- Claim C10 counterexample: after checking a fresh item out and back in, the
status is IN_STOCK and yet the due timestamp is still set — `check_in` never
clears `due`, so "due is non-null only when CHECKED_OUT" fails. -/
theorem claim_C10_counterexample :
    cexItemC10.status = Status.instock ∧ cexItemC10.due = some 150600 := by
  decide

/-- Claim C10 (amended): in every state reachable from a freshly created Item
via the defined operations, status CHECKED_OUT implies the due timestamp is
non-null; but a successful `check_in` leaves the due timestamp exactly as it
was (the source never clears it), so after check-in `due` keeps its non-null
value rather than becoming null. -/
theorem claim_C10_amended (id : Nat) (sn hn : String) (kf : Bool) (ops : List Op)
    (it : Item) (note : Option String) :
    ((runOps (freshItem id sn hn kf) ops).status = Status.out →
      (runOps (freshItem id sn hn kf) ops).due ≠ none) ∧
    (applyOp it (Op.checkIn note)).due = it.due := by
  constructor
  · refine runOps_preserve (fun x => x.status = Status.out → x.due ≠ none) ?_ ops
      (freshItem id sn hn kf) ?_
    · intro it2 op h
      cases op with
      | addToStock n =>
        by_cases hst : it2.status = Status.instock
        · intro hout
          have heq : applyOp it2 (Op.addToStock n) = it2 := by
            simp [applyOp, Item.add_to_stock, hst]
          rw [heq] at hout ⊢
          exact h hout
        · intro hout
          have heq : (applyOp it2 (Op.addToStock n)).status = Status.instock := by
            simp [applyOp, Item.add_to_stock, hst]
          rw [heq] at hout
          exact absurd hout (by decide)
      | checkOut p c t n =>
        by_cases hst : it2.status = Status.instock
        · by_cases hnum : it2.serialnumber = "" ∧ it2.hip_number = ""
          · have h3 : (({ it2 with status := Status.out, checked_out_by := some p } : Item).set_due_datetime c t).saveCheck
                = Except.error (EquipError.itemError "Each item needs either a serial number or a HIP number") := by
              refine saveCheck_error_of _ ?_
              simp only [set_due_datetime_serial, set_due_datetime_hip]
              exact hnum
            have heq : applyOp it2 (Op.checkOut p c t n) = it2 := by
              simp [applyOp, Item.check_out, hst, h3]
            rw [heq]; exact h
          · have heq : applyOp it2 (Op.checkOut p c t n)
                = ({ it2 with status := Status.out, checked_out_by := some p } : Item).set_due_datetime c t := by
              simp [applyOp, check_out_ok it2 p c t n hst hnum]
            rw [heq]
            intro _
            simp [set_due_datetime_due]
        · have heq : applyOp it2 (Op.checkOut p c t n) = it2 := by
            simp [applyOp, check_out_guard it2 p c t n hst]
          rw [heq]; exact h
      | checkIn n =>
        by_cases hst : it2.status = Status.out
        · by_cases hnum : it2.serialnumber = "" ∧ it2.hip_number = ""
          · have h3 : ({ it2 with status := Status.instock, checked_out_by := none } : Item).saveCheck
                = Except.error (EquipError.itemError "Each item needs either a serial number or a HIP number") :=
              saveCheck_error_of _ hnum
            have heq : applyOp it2 (Op.checkIn n) = it2 := by
              simp [applyOp, Item.check_in, hst, h3]
            rw [heq]; exact h
          · have heq : applyOp it2 (Op.checkIn n)
                = ({ it2 with status := Status.instock, checked_out_by := none } : Item) := by
              simp [applyOp, check_in_ok it2 n hst hnum]
            rw [heq]
            intro hout
            exact absurd hout (by simp)
        · have heq : applyOp it2 (Op.checkIn n) = it2 := by
            simp [applyOp, check_in_guard it2 n hst]
          rw [heq]; exact h
    · intro hout
      exact absurd hout (by simp [freshItem])
  · by_cases hst : it.status = Status.out
    · by_cases hnum : it.serialnumber = "" ∧ it.hip_number = ""
      · have h3 : ({ it with status := Status.instock, checked_out_by := none } : Item).saveCheck
            = Except.error (EquipError.itemError "Each item needs either a serial number or a HIP number") :=
          saveCheck_error_of _ hnum
        simp [applyOp, Item.check_in, hst, h3]
      · simp [applyOp, check_in_ok it note hst hnum]
    · simp [applyOp, check_in_guard it note hst]

/-- Witness for C10 (amended): a freshly checked-out item has status OUT, so
the invariant gives it a non-null due timestamp. -/
theorem claim_C10_amended_witness :
    (runOps (freshItem 1 "2345" "" false) [Op.checkOut 7 none 0 none]).due ≠ none :=
  (claim_C10_amended 1 "2345" "" false [Op.checkOut 7 none 0 none]
    (freshItem 1 "2345" "" false) none).1 (by decide)

/-- Claim C5: `find_by_number` fails with a not-found error when no Item has
the looked-up value as HIP number or serial number, fails with an
ambiguous-match error listing the matching Items' ids when more than one Item
matches across the two fields, and returns the unique matching Item when
exactly one matches. -/
theorem claim_C5 (items : List Item) (number : String) :
    (matchesFor items number = [] →
      find_by_number items number = Except.error (EquipError.itemError
        ("No item found with serial/HIP number " ++ number))) ∧
    ((matchesFor items number).length > 1 →
      find_by_number items number = Except.error (EquipError.itemError
        ("Multiple matches for " ++ number ++ ": [" ++
          String.intercalate ", "
            ((matchesFor items number).map (fun item => toString item.id)) ++ "]"))) ∧
    (∀ m : Item, matchesFor items number = [m] →
      find_by_number items number = Except.ok m) := by
  refine ⟨fun h0 => ?_, fun h1 => ?_, fun m hm => ?_⟩
  · simp [find_by_number, h0]
  · simp [find_by_number, h1]
  · simp [find_by_number, hm]

/-- Witness for C5, the spec's own scenario: serials "2345", "4567" and a
third item with HIP "C1" sharing serial "4567". Looking up "9999" is
not-found, "4567" is ambiguous (ids 2 and 3), "C1" returns the third item. -/
theorem claim_C5_witness :
    find_by_number itemsEx5 "9999" = Except.error (EquipError.itemError
      ("No item found with serial/HIP number " ++ "9999")) ∧
    find_by_number itemsEx5 "4567" = Except.error (EquipError.itemError
      ("Multiple matches for " ++ "4567" ++ ": [" ++
        String.intercalate ", "
          ((matchesFor itemsEx5 "4567").map (fun item => toString item.id)) ++ "]")) ∧
    find_by_number itemsEx5 "C1" =
      Except.ok ⟨3, "4567", "C1", false, Status.instock, none, none⟩ :=
  ⟨(claim_C5 itemsEx5 "9999").1 (by decide),
   (claim_C5 itemsEx5 "4567").2.1 (by decide),
   (claim_C5 itemsEx5 "C1").2.2 ⟨3, "4567", "C1", false, Status.instock, none, none⟩ (by decide)⟩

lemma foldl_max_init (f : Item → Int) (l : List Item) :
    ∀ a : Int, a ≤ l.foldl (fun acc it => max acc (f it)) a := by
  induction l with
  | nil => intro a; exact le_refl a
  | cons x xs ih =>
    intro a
    rw [List.foldl_cons]
    calc a ≤ max a (f x) := le_max_left a (f x)
      _ ≤ xs.foldl (fun acc it => max acc (f it)) (max a (f x)) := ih (max a (f x))

lemma foldl_max_mem (f : Item → Int) (l : List Item) :
    ∀ (a : Int) (x : Item), x ∈ l → f x ≤ l.foldl (fun acc it => max acc (f it)) a := by
  induction l with
  | nil => intro a x hx; cases hx
  | cons y ys ih =>
    intro a x hx
    rw [List.foldl_cons]
    rcases List.mem_cons.mp hx with h | h
    · subst h
      calc f x ≤ max a (f x) := le_max_right a (f x)
        _ ≤ ys.foldl (fun acc it => max acc (f it)) (max a (f x)) := foldl_max_init f ys _
    · exact ih (max a (f y)) x h

lemma foldl_max_attain (f : Item → Int) (l : List Item) :
    ∀ a : Int, l.foldl (fun acc it => max acc (f it)) a = a ∨
      ∃ x ∈ l, f x = l.foldl (fun acc it => max acc (f it)) a := by
  induction l with
  | nil => intro a; exact Or.inl rfl
  | cons y ys ih =>
    intro a
    rw [List.foldl_cons]
    rcases ih (max a (f y)) with h | h
    · rcases le_or_lt (f y) a with hle | hlt
      · left
        rw [h, max_eq_left hle]
      · right
        exact ⟨y, List.mem_cons_self y ys, by rw [h, max_eq_right (le_of_lt hlt)]⟩
    · rcases h with ⟨x, hx, hfx⟩
      exact Or.inr ⟨x, List.mem_cons_of_mem y hx, hfx⟩

/-- Claim C6: `Penalty.levy` computes the maximum `days_overdue` over the
person's borrowed items; if the maximum is 0 it returns nothing; otherwise it
returns one Penalty with amount `BASE_PENALTY_AMOUNT * maximum` and exactly
the items tied at that maximum attached. -/
theorem claim_C6 (student : Nat) (item_set : List Item) (as_of : Int)
    (hbor : ∀ it ∈ item_set, it.checked_out_by = some student)
    (hwf : ∀ it ∈ item_set, it.is_checked_out = true → it.due ≠ none) :
    (∀ it ∈ item_set, it.days_overdue as_of ≤ maxOverdue item_set as_of) ∧
    (maxOverdue item_set as_of = 0 ∨
      ∃ it ∈ item_set, it.days_overdue as_of = maxOverdue item_set as_of) ∧
    (maxOverdue item_set as_of = 0 → Penalty.levy student item_set as_of = none) ∧
    (maxOverdue item_set as_of ≠ 0 →
      ∃ p : Penalty, Penalty.levy student item_set as_of = some p ∧
        p.student = student ∧
        p.amount = BASE_PENALTY_AMOUNT * maxOverdue item_set as_of ∧
        (∀ it ∈ item_set,
          (it ∈ p.items ↔ it.days_overdue as_of = maxOverdue item_set as_of))) := by
  refine ⟨?_, ?_, ?_, ?_⟩
  · intro it hit
    exact foldl_max_mem (fun x => x.days_overdue as_of) item_set 0 it hit
  · exact foldl_max_attain (fun x => x.days_overdue as_of) item_set 0
  · intro h0
    unfold Penalty.levy
    rw [show item_set.foldl (fun acc item => max acc (item.days_overdue as_of)) 0
          = maxOverdue item_set as_of from rfl, h0]
    simp
  · intro hne
    have hamt : BASE_PENALTY_AMOUNT * maxOverdue item_set as_of ≠ 0 := by
      have hb : BASE_PENALTY_AMOUNT ≠ 0 := by norm_num [BASE_PENALTY_AMOUNT]
      exact mul_ne_zero hb hne
    refine ⟨{ student := student,
              amount := BASE_PENALTY_AMOUNT * maxOverdue item_set as_of,
              items := item_set.filter
                (fun item => item.days_overdue as_of == maxOverdue item_set as_of) },
            ?_, rfl, rfl, ?_⟩
    · unfold Penalty.levy
      rw [show item_set.foldl (fun acc item => max acc (item.days_overdue as_of)) 0
            = maxOverdue item_set as_of from rfl]
      rw [if_neg hamt]
    · intro it hit
      simp [List.mem_filter, hit]

/-- Witness for C6: two items of borrower 7 both due at timestamp 0, levied at
24h + 1 minute later: both are two days overdue, one Penalty of 2 × 2500 is
created and both tied items are attached. -/
theorem claim_C6_witness :
    ∃ p : Penalty, Penalty.levy 7 itemsEx6 86460 = some p ∧
      p.student = 7 ∧
      p.amount = BASE_PENALTY_AMOUNT * maxOverdue itemsEx6 86460 ∧
      (∀ it ∈ itemsEx6,
        (it ∈ p.items ↔ it.days_overdue 86460 = maxOverdue itemsEx6 86460)) :=
  (claim_C6 7 itemsEx6 86460 (by decide) (by decide)).2.2.2 (by decide)

lemma saveCheck_ok_eq (it it2 : Item) (h : it.saveCheck = Except.ok it2) : it2 = it := by
  unfold Item.saveCheck at h
  by_cases hnum : it.serialnumber = "" ∧ it.hip_number = ""
  · rw [if_pos hnum] at h
    exact Except.noConfusion h
  · rw [if_neg hnum] at h
    injection h with h2
    exact h2.symm

lemma exceptMap_ok_of_forall {α β : Type} (f : α → Except EquipError β) (g : α → β) :
    ∀ l : List α, (∀ x ∈ l, f x = Except.ok (g x)) →
      exceptMap f l = Except.ok (l.map g) := by
  intro l
  induction l with
  | nil => intro _; rfl
  | cons x xs ih =>
    intro h
    have hx : f x = Except.ok (g x) := h x (List.mem_cons_self x xs)
    have hxs := ih (fun y hy => h y (List.mem_cons_of_mem x hy))
    simp [exceptMap, hx, hxs]

lemma exceptMap_ok_mem {α β : Type} (f : α → Except EquipError β) :
    ∀ (l : List α) (l2 : List β), exceptMap f l = Except.ok l2 →
      ∀ x ∈ l, ∃ y, f x = Except.ok y := by
  intro l
  induction l with
  | nil => intro l2 _ x hx; cases hx
  | cons z zs ih =>
    intro l2 h x hx
    cases hz : f z with
    | error e =>
      rw [exceptMap, hz] at h
      exact Except.noConfusion h
    | ok y =>
      rw [exceptMap, hz] at h
      cases hrest : exceptMap f zs with
      | error e =>
        rw [hrest] at h
        exact Except.noConfusion h
      | ok ys =>
        rcases List.mem_cons.mp hx with rfl | hmem
        · exact ⟨y, hz⟩
        · exact ih ys hrest x hmem

lemma kitContentSave_ok_eq (due : Option Int) (today : Nat) (item it2 : Item)
    (h : kitContentSave due today item = Except.ok it2) :
    it2 = item.set_due_datetime due today := by
  unfold kitContentSave at h
  exact saveCheck_ok_eq _ _ h

lemma exceptMap_kitContentSave_shape (due : Option Int) (today : Nat) :
    ∀ (l l2 : List Item), exceptMap (kitContentSave due today) l = Except.ok l2 →
      l2 = l.map (fun c2 => c2.set_due_datetime due today) := by
  intro l
  induction l with
  | nil =>
    intro l2 h
    rw [exceptMap] at h
    injection h with h2
    exact h2.symm
  | cons z zs ih =>
    intro l2 h
    cases hz : kitContentSave due today z with
    | error e =>
      rw [exceptMap, hz] at h
      exact Except.noConfusion h
    | ok y =>
      rw [exceptMap, hz] at h
      cases hrest : exceptMap (kitContentSave due today) zs with
      | error e =>
        rw [hrest] at h
        exact Except.noConfusion h
      | ok ys =>
        rw [hrest] at h
        injection h with h2
        subst h2
        rw [List.map_cons, kitContentSave_ok_eq due today z y hz, ih ys hrest]

lemma kit_save_ok (w : KitWorld) (today : Nat)
    (hkit : w.kit.is_kit = true)
    (hnum : ¬ (w.kit.serialnumber = "" ∧ w.kit.hip_number = ""))
    (hcnum : ∀ c2 ∈ w.contents, ¬ (c2.serialnumber = "" ∧ c2.hip_number = "")) :
    KitWorld.save w today = Except.ok
      { kit := w.kit,
        contents := w.contents.map (fun c2 => c2.set_due_datetime w.kit.due today) } := by
  have hmap : exceptMap (kitContentSave w.kit.due today) w.contents
      = Except.ok (w.contents.map (fun c2 => c2.set_due_datetime w.kit.due today)) := by
    refine exceptMap_ok_of_forall _ _ w.contents ?_
    intro x hx
    unfold kitContentSave
    refine saveCheck_ok_of _ ?_
    simp only [set_due_datetime_serial, set_due_datetime_hip]
    exact hcnum x hx
  simp [KitWorld.save, hnum, hkit, hmap]

lemma kit_save_ok_inv (w : KitWorld) (today : Nat) (w1 : KitWorld)
    (h : KitWorld.save w today = Except.ok w1) (hkit : w.kit.is_kit = true) :
    w1.kit = w.kit ∧
    w1.contents = w.contents.map (fun c2 => c2.set_due_datetime w.kit.due today) := by
  unfold KitWorld.save at h
  by_cases hnum : w.kit.serialnumber = "" ∧ w.kit.hip_number = ""
  · rw [if_pos hnum] at h
    exact Except.noConfusion h
  · rw [if_neg hnum, if_pos hkit] at h
    cases hmap : exceptMap (kitContentSave w.kit.due today) w.contents with
    | error e =>
      rw [hmap] at h
      exact Except.noConfusion h
    | ok l2 =>
      rw [hmap] at h
      injection h with h2
      rw [← h2]
      exact ⟨rfl, exceptMap_kitContentSave_shape w.kit.due today w.contents l2 hmap⟩

/-- Claim C7 counterexample: wEx7 is a kit whose due timestamp is null and
that contains one item; saving it sets the contained item's due to the
default due date computed from today (here day 0, item due 150600 = day 1 at
17:50), not to the kit's null due — `if custom_due_datetime:` treats None as
"compute the default". -/
theorem claim_C7_counterexample :
    KitWorld.save wEx7 0 = Except.ok
      { kit := wEx7.kit,
        contents := [⟨1, "2345", "", false, Status.instock, none, some 150600⟩] } ∧
    wEx7.kit.due = none ∧
    ¬ ((⟨1, "2345", "", false, Status.instock, none, some 150600⟩ : Item).due
        = wEx7.kit.due) := by
  decide

/-- Claim C7 (amended): saving a kit cascades onto every contained Item. When
the kit's due timestamp is non-null the contained Items' due becomes exactly
the kit's; when the kit's due is null, each contained Item's due is instead
set to the default due date computed from today. -/
theorem claim_C7_amended (w : KitWorld) (today : Nat)
    (hkit : w.kit.is_kit = true)
    (hnum : ¬ (w.kit.serialnumber = "" ∧ w.kit.hip_number = ""))
    (hcnum : ∀ c2 ∈ w.contents, ¬ (c2.serialnumber = "" ∧ c2.hip_number = "")) :
    ∃ w2, KitWorld.save w today = Except.ok w2 ∧ w2.kit = w.kit ∧
      w2.contents = w.contents.map (fun c2 => c2.set_due_datetime w.kit.due today) ∧
      (∀ d : Int, w.kit.due = some d → ∀ c2 ∈ w2.contents, c2.due = some d) ∧
      (w.kit.due = none → ∀ c2 ∈ w2.contents, c2.due = some (default_due today)) := by
  refine ⟨_, kit_save_ok w today hkit hnum hcnum, rfl, rfl, ?_, ?_⟩
  · intro d hd c2 hc2
    rcases List.mem_map.mp hc2 with ⟨x, _, rfl⟩
    rw [hd, set_due_datetime_due]
    rfl
  · intro hd c2 hc2
    rcases List.mem_map.mp hc2 with ⟨x, _, rfl⟩
    rw [hd, set_due_datetime_due]
    rfl

/-- Witness for C7 (amended): a kit with due 42 containing one item; saving
cascades due 42 onto the contained item. -/
theorem claim_C7_amended_witness :
    ∃ w2, KitWorld.save wEx7b 0 = Except.ok w2 ∧ w2.kit = wEx7b.kit ∧
      w2.contents = wEx7b.contents.map (fun c2 => c2.set_due_datetime wEx7b.kit.due 0) ∧
      (∀ d : Int, wEx7b.kit.due = some d → ∀ c2 ∈ w2.contents, c2.due = some d) ∧
      (wEx7b.kit.due = none → ∀ c2 ∈ w2.contents, c2.due = some (default_due 0)) :=
  claim_C7_amended wEx7b 0 (by decide) (by decide) (by decide)

lemma kitContentCheckOut_ok (person today : Nat) (item : Item)
    (hst : item.status = Status.instock)
    (hnum : ¬ (item.serialnumber = "" ∧ item.hip_number = "")) :
    kitContentCheckOut person today item = Except.ok
      (({ item with status := Status.out, checked_out_by := some person } : Item).set_due_datetime
        none today) := by
  unfold kitContentCheckOut
  rw [check_out_ok item person none today (some "Checked out as part of kit") hst hnum]

lemma kitContentCheckOut_error (person today : Nat) (item : Item)
    (hst : item.status ≠ Status.instock) :
    kitContentCheckOut person today item = Except.error (EquipError.transactionError
      ("Item isn't in stock -- " ++ statusDisplay item.status)) := by
  unfold kitContentCheckOut
  rw [check_out_guard item person none today (some "Checked out as part of kit") hst]

lemma exceptMap_error_of_mem_error {α β : Type} (f : α → Except EquipError β) :
    ∀ (l : List α) (x : α), x ∈ l → ∀ e0 : EquipError, f x = Except.error e0 →
      ∃ e, exceptMap f l = Except.error e := by
  intro l
  induction l with
  | nil => intro x hx; cases hx
  | cons z zs ih =>
    intro x hx e0 hfx
    rcases List.mem_cons.mp hx with rfl | hmem
    · exact ⟨e0, by rw [exceptMap, hfx]⟩
    · cases hz : f z with
      | error e => exact ⟨e, by rw [exceptMap, hz]⟩
      | ok y =>
        rcases ih x hmem e0 hfx with ⟨e, he⟩
        exact ⟨e, by rw [exceptMap, hz, he]⟩

/-- Claim C8 counterexample: wEx8 is an in-stock kit with one in-stock
content; checking it out with the explicit custom due timestamp 0 leaves the
kit due at 0 but the contained item due at the default 150600 (day 1 at
17:50), because the recursive `item.check_out(person, note=...)` passes no
custom due down. -/
theorem claim_C8_counterexample :
    KitWorld.check_out wEx8 7 (some 0) 0 none = Except.ok
      { kit := ⟨10, "1974", "", true, Status.out, some 7, some 0⟩,
        contents := [⟨1, "2345", "", false, Status.out, some 7, some 150600⟩] } ∧
    ¬ ((⟨1, "2345", "", false, Status.out, some 7, some 150600⟩ : Item).due
        = (⟨10, "1974", "", true, Status.out, some 7, some 0⟩ : Item).due) := by
  decide

/-- Claim C8 (amended): checking out an in-stock kit whose contents are all
in stock succeeds and leaves every contained Item CHECKED_OUT by the same
person; the kit's due is the supplied custom timestamp (or the default), but
each contained Item's due is always the default due date computed from today,
which coincides with the kit's own due exactly in the default case — in
particular when no custom due is supplied the contents share the kit's due. -/
theorem claim_C8_amended (w : KitWorld) (person : Nat) (custom : Option Int) (today : Nat)
    (note : Option String)
    (hkit : w.kit.is_kit = true)
    (hst : w.kit.status = Status.instock)
    (hnum : ¬ (w.kit.serialnumber = "" ∧ w.kit.hip_number = ""))
    (hc : ∀ c2 ∈ w.contents, c2.status = Status.instock ∧ c2.is_kit = false ∧
      ¬ (c2.serialnumber = "" ∧ c2.hip_number = "")) :
    ∃ w2, KitWorld.check_out w person custom today note = Except.ok w2 ∧
      w2.kit.status = Status.out ∧
      w2.kit.checked_out_by = some person ∧
      w2.kit.due = some (Option.getD custom (default_due today)) ∧
      (∀ c2 ∈ w2.contents, c2.status = Status.out ∧ c2.checked_out_by = some person ∧
        c2.due = some (default_due today)) ∧
      (custom = none → ∀ c2 ∈ w2.contents, c2.due = w2.kit.due) := by
  have hk3 : (({ w.kit with status := Status.out, checked_out_by := some person } : Item).set_due_datetime
      custom today).is_kit = true := by
    simp only [Item.is_kit, set_due_datetime_kit]
    exact hkit
  have hn3 : ¬ ((({ w.kit with status := Status.out, checked_out_by := some person } : Item).set_due_datetime
      custom today).serialnumber = ""
      ∧ (({ w.kit with status := Status.out, checked_out_by := some person } : Item).set_due_datetime
          custom today).hip_number = "") := by
    simp only [set_due_datetime_serial, set_due_datetime_hip]
    exact hnum
  have hsave := kit_save_ok
    ⟨({ w.kit with status := Status.out, checked_out_by := some person } : Item).set_due_datetime
        custom today, w.contents⟩ today hk3 hn3 (fun c2 hc2 => (hc c2 hc2).2.2)
  have hmap2 : ∀ d : Option Int, exceptMap (kitContentCheckOut person today)
      (w.contents.map (fun c2 => c2.set_due_datetime d today))
      = Except.ok ((w.contents.map (fun c2 => c2.set_due_datetime d today)).map
          (fun c2 => ({ c2 with status := Status.out, checked_out_by := some person } : Item).set_due_datetime
            none today)) := by
    intro d
    refine exceptMap_ok_of_forall _ _ _ ?_
    intro x hx
    rcases List.mem_map.mp hx with ⟨x0, hx0, rfl⟩
    refine kitContentCheckOut_ok person today _ ?_ ?_
    · rw [set_due_datetime_status]
      exact (hc x0 hx0).1
    · simp only [set_due_datetime_serial, set_due_datetime_hip]
      exact (hc x0 hx0).2.2
  refine ⟨{ kit := ({ w.kit with status := Status.out, checked_out_by := some person } : Item).set_due_datetime custom today,
            contents := (w.contents.map (fun c2 => c2.set_due_datetime
                ((({ w.kit with status := Status.out, checked_out_by := some person } : Item).set_due_datetime custom today)).due today)).map
              (fun c2 => ({ c2 with status := Status.out, checked_out_by := some person } : Item).set_due_datetime none today) },
          ?_, ?_, ?_, ?_, ?_, ?_⟩
  · unfold KitWorld.check_out
    rw [if_neg (by simp [hst])]
    dsimp only
    rw [hsave]
    dsimp only
    rw [if_pos hk3]
    rw [hmap2]
  · simp only [set_due_datetime_status]
  · simp only [set_due_datetime_checked_out_by]
  · simp only [set_due_datetime_due]
  · intro c2 hc2
    rcases List.mem_map.mp hc2 with ⟨x1, _, rfl⟩
    refine ⟨?_, ?_, ?_⟩
    · simp only [set_due_datetime_status]
    · simp only [set_due_datetime_checked_out_by]
    · simp only [set_due_datetime_due]
      rfl
  · intro hnone c2 hc2
    subst hnone
    rcases List.mem_map.mp hc2 with ⟨x1, _, rfl⟩
    simp only [set_due_datetime_due]

/-- Witness for C8 (amended): the concrete in-stock kit wEx8 checked out with
no custom due on day 0; the kit and its content both end due at the default. -/
theorem claim_C8_amended_witness :
    ∃ w2, KitWorld.check_out wEx8 7 none 0 none = Except.ok w2 ∧
      w2.kit.status = Status.out ∧
      w2.kit.checked_out_by = some 7 ∧
      w2.kit.due = some (Option.getD none (default_due 0)) ∧
      (∀ c2 ∈ w2.contents, c2.status = Status.out ∧ c2.checked_out_by = some 7 ∧
        c2.due = some (default_due 0)) ∧
      ((none : Option Int) = none → ∀ c2 ∈ w2.contents, c2.due = w2.kit.due) :=
  claim_C8_amended wEx8 7 none 0 none (by decide) (by decide) (by decide) (by decide)

/-- Claim C9 counterexample: wEx9 is an in-stock kit containing an item that
is already checked out; checking out the kit propagates the contained item's
TransactionError to the caller instead of completing. -/
theorem claim_C9_counterexample :
    KitWorld.check_out wEx9 7 none 0 none = Except.error
      (EquipError.transactionError "Item isn't in stock -- checked out") := by
  decide

/-- Claim C9 (amended): for an in-stock kit containing at least one Item that
is not IN_STOCK, `check_out` on the kit raises: the contained Item's checkout
failure (or an earlier save failure) propagates to the caller — there is no
try/except around the recursive calls in the source. -/
theorem claim_C9_amended (w : KitWorld) (person : Nat) (custom : Option Int) (today : Nat)
    (note : Option String)
    (hkit : w.kit.is_kit = true)
    (hst : w.kit.status = Status.instock)
    (hbad : ∃ c2 ∈ w.contents, c2.status ≠ Status.instock) :
    ∃ e, KitWorld.check_out w person custom today note = Except.error e := by
  rcases hbad with ⟨cbad, hmem, hbadst⟩
  unfold KitWorld.check_out
  rw [if_neg (by simp [hst])]
  dsimp only
  cases hsave : KitWorld.save
      ⟨({ w.kit with status := Status.out, checked_out_by := some person } : Item).set_due_datetime
        custom today, w.contents⟩ today with
  | error e =>
    exact ⟨e, rfl⟩
  | ok w1 =>
    dsimp only
    have hk3 : (({ w.kit with status := Status.out, checked_out_by := some person } : Item).set_due_datetime
        custom today).is_kit = true := by
      simp only [Item.is_kit, set_due_datetime_kit]
      exact hkit
    have hinv := kit_save_ok_inv _ today w1 hsave hk3
    have hw1kit : w1.kit.is_kit = true := by
      rw [hinv.1]
      exact hk3
    rw [if_pos hw1kit]
    have hbadmem : cbad.set_due_datetime
        ((({ w.kit with status := Status.out, checked_out_by := some person } : Item).set_due_datetime
          custom today).due) today ∈ w1.contents := by
      rw [hinv.2]
      exact List.mem_map_of_mem _ hmem
    have hbad2 : (cbad.set_due_datetime
        ((({ w.kit with status := Status.out, checked_out_by := some person } : Item).set_due_datetime
          custom today).due) today).status ≠ Status.instock := by
      rw [set_due_datetime_status]
      exact hbadst
    rcases exceptMap_error_of_mem_error (kitContentCheckOut person today) w1.contents _ hbadmem _
        (kitContentCheckOut_error person today _ hbad2) with ⟨e, he⟩
    rw [he]
    exact ⟨e, rfl⟩

/-- Witness for C9 (amended): the concrete kit wEx9 whose single content is
already checked out; the kit checkout returns an error. -/
theorem claim_C9_amended_witness :
    ∃ e, KitWorld.check_out wEx9 7 none 0 none = Except.error e :=
  claim_C9_amended wEx9 7 none 0 none (by decide) (by decide) (by decide)

end EquipModels
